import Mathlib

/-!
# Loan platform front end: workflow controllers of `src/App.js`

A shallow embedding of the two stateful React components of `src/App.js`,
`BorrowerManagement` and `DisburseFunds`.

* React state (`useState`) is a record; a state setter is a record update.
* An `async` handler is split at its single `await`: the part that runs
  synchronously up to the request (`f`) and the part that runs once the
  request has settled (`f_resume`), which receives the settled response as
  `Except GatewayError _` (`ok` = the promise fulfilled, `error` = it
  rejected and the `catch` block runs).
* Everything outside React state that the handlers touch is kept in `Env`:
  `window.location.href`, the lines written with `console.error`, and the
  requests handed to the axios instance `api`.
* `step` delivers one event (a user action or a settled request) to a
  component, `run` a sequence of them.
* Three behaviours of the platform are part of what the handlers do and are
  modelled with them: `Number(text)` (`Number`), the value an
  `<input type="number">` reports for what was typed (`numberFieldValue`),
  and the Snackbar calling its `onClose` on a click outside it (the click
  events of `step`). Whether a text parses as a URL is the browser's verdict
  and arrives with the response (`OnboardResponse.url`).
-/

namespace LoanPlatform

/-! ## JavaScript values -/

/-- JavaScript Number values: `NaN`, the two infinities, and the finite values, written as
rationals (`roundToDouble` below maps a rational to the double `Number` returns for it).
The sign of zero is not kept: the program never observes it. -/
inductive JsNumber where
  | nan
  | negInf
  | fin (q : ℚ)
  | posInf
  deriving DecidableEq

namespace JsNumber

/-- The relational operator `a <= b` on numbers; `false` as soon as one side is `NaN`. -/
def le : JsNumber → JsNumber → Bool
  | nan, _ => false
  | _, nan => false
  | negInf, _ => true
  | _, posInf => true
  | fin a, fin b => decide (a ≤ b)
  | fin _, negInf => false
  | posInf, _ => false

/-- The relational operator `a > b` on numbers; `false` as soon as one side is `NaN`. -/
def gt : JsNumber → JsNumber → Bool
  | nan, _ => false
  | _, nan => false
  | _, posInf => false
  | negInf, _ => false
  | fin a, fin b => decide (b < a)
  | fin _, negInf => true
  | posInf, _ => true

end JsNumber

/-- The values that occur as a borrower id, a loan amount or a selection: strings and numbers. -/
inductive JsValue where
  | str (s : String)
  | num (n : JsNumber)
  deriving DecidableEq

/-- ToBoolean: the empty string, zero and `NaN` are falsy. -/
def JsValue.toBoolean : JsValue → Bool
  | .str s => decide (s ≠ "")
  | .num .nan => false
  | .num (.fin q) => decide (q ≠ 0)
  | .num _ => true

/-! ### Rounding to a double -/

/-- The largest `e` with `2 ^ e ≤ p / q`, for positive `p` and `q`. -/
def floorLog2 (p q : Nat) : Int :=
  let e0 : Int := (Nat.log2 p : Int) - (Nat.log2 q : Int)
  if (2 : ℚ) ^ e0 ≤ (p : ℚ) / (q : ℚ) then e0 else e0 - 1

/-- The integer nearest to a non-negative rational, the even one of the two on a tie. -/
def roundHalfEven (x : ℚ) : Nat :=
  let n : Nat := (Int.floor x).toNat
  let r : ℚ := x - (n : ℚ)
  if r < 1 / 2 then n
  else if 1 / 2 < r then n + 1
  else if n % 2 = 0 then n else n + 1

/-- The double nearest to a rational (binary64, round to nearest, ties to even): 53
significant bits, exponent no lower than `-1022` (below that the spacing stays `2 ^ -1074`,
so tiny values become `0`), and an infinity once the rounded value reaches `2 ^ 1024`. -/
def roundToDouble (x : ℚ) : JsNumber :=
  if x = 0 then .fin 0
  else
    let a : ℚ := |x|
    let e : Int := max (floorLog2 a.num.natAbs a.den) (-1022)
    let ulp : ℚ := (2 : ℚ) ^ (e - 52)
    let r : ℚ := (roundHalfEven (a / ulp) : ℚ) * ulp
    if (2 : ℚ) ^ (1024 : Nat) ≤ r then (if x < 0 then .negInf else .posInf)
    else .fin (if x < 0 then -r else r)

/-! ### `Number(text)` -/

/-- WhiteSpace and LineTerminator code points, which `Number` strips from both ends. -/
def isStrWhiteSpaceChar (c : Char) : Bool :=
  let n := c.toNat
  decide (n ∈ [0x9, 0xA, 0xB, 0xC, 0xD, 0x20, 0xA0, 0x1680, 0x2028, 0x2029, 0x202F,
    0x205F, 0x3000, 0xFEFF]) || (decide (0x2000 ≤ n) && decide (n ≤ 0x200A))

/-- The value of a digit character in bases up to sixteen. -/
def digitValue (c : Char) : Option Nat :=
  let n := c.toNat
  if 48 ≤ n ∧ n ≤ 57 then some (n - 48)
  else if 97 ≤ n ∧ n ≤ 102 then some (n - 87)
  else if 65 ≤ n ∧ n ≤ 70 then some (n - 55)
  else none

/-- Reads a run of digits of the given radix; `none` when a character is not such a digit. -/
def readDigits (radix : Nat) (acc : Nat) : List Char → Option Nat
  | [] => some acc
  | c :: cs =>
    match digitValue c with
    | some d => if d < radix then readDigits radix (radix * acc + d) cs else none
    | none => none

/-- A non-empty run of digits of the given radix. -/
def parseDigits (radix : Nat) (cs : List Char) : Option Nat :=
  if cs = [] then none else readDigits radix 0 cs

/-- The ASCII digits `0` to `9`. -/
def isDecimalDigit (c : Char) : Bool :=
  decide (48 ≤ c.toNat) && decide (c.toNat ≤ 57)

/-- ExponentPart after its `e`: an optional sign and a non-empty run of decimal digits. -/
def parseSignedInteger : List Char → Option Int
  | '+' :: cs => (parseDigits 10 cs).map Int.ofNat
  | '-' :: cs => (parseDigits 10 cs).map (fun n => - Int.ofNat n)
  | cs => (parseDigits 10 cs).map Int.ofNat

/-- The mathematical value of a StrUnsignedDecimalLiteral other than `Infinity`:
`digits . digits? exp?`, `. digits exp?` or `digits exp?`; `none` for any other text. -/
def parseUnsignedDecimal (cs : List Char) : Option ℚ :=
  let ip := cs.takeWhile isDecimalDigit
  let rest := cs.dropWhile isDecimalDigit
  let fracAndTail : List Char × List Char := match rest with
    | '.' :: r => (r.takeWhile isDecimalDigit, r.dropWhile isDecimalDigit)
    | r => ([], r)
  let fp := fracAndTail.1
  if ip = [] ∧ fp = [] then none
  else
    let exponent : Option Int := match fracAndTail.2 with
      | [] => some 0
      | 'e' :: r => parseSignedInteger r
      | 'E' :: r => parseSignedInteger r
      | _ => none
    match readDigits 10 0 (ip ++ fp), exponent with
    | some m, some e => some ((m : ℚ) * (10 : ℚ) ^ (e - Int.ofNat fp.length))
    | _, _ => none

/-- StrUnsignedDecimalLiteral. -/
def parseUnsigned (cs : List Char) : JsNumber :=
  if cs = "Infinity".toList then .posInf
  else match parseUnsignedDecimal cs with
    | some q => roundToDouble q
    | none => .nan

/-- Unary minus. -/
def JsNumber.neg : JsNumber → JsNumber
  | .nan => .nan
  | .negInf => .posInf
  | .fin q => .fin (-q)
  | .posInf => .negInf

/-- StringToNumber on the text with white space already stripped. -/
def parseNumericLiteral : List Char → JsNumber
  | [] => .fin 0
  | '0' :: 'x' :: cs => (parseDigits 16 cs).elim .nan (fun n => roundToDouble n)
  | '0' :: 'X' :: cs => (parseDigits 16 cs).elim .nan (fun n => roundToDouble n)
  | '0' :: 'o' :: cs => (parseDigits 8 cs).elim .nan (fun n => roundToDouble n)
  | '0' :: 'O' :: cs => (parseDigits 8 cs).elim .nan (fun n => roundToDouble n)
  | '0' :: 'b' :: cs => (parseDigits 2 cs).elim .nan (fun n => roundToDouble n)
  | '0' :: 'B' :: cs => (parseDigits 2 cs).elim .nan (fun n => roundToDouble n)
  | '+' :: cs => parseUnsigned cs
  | '-' :: cs => (parseUnsigned cs).neg
  | cs => parseUnsigned cs

/-- The built-in `Number(text)` applied to a string: strip white space, then read a numeric
literal and round its value to a double; the empty text is `0`, a text that is no numeric
literal is `NaN`. -/
def Number (text : String) : JsNumber :=
  parseNumericLiteral
    ((text.toList.dropWhile isStrWhiteSpaceChar).reverse.dropWhile isStrWhiteSpaceChar).reverse

/-! ### The value of an `<input type="number">` -/

/-- The exponent of a valid floating-point number after its `e`: an optional `-` or `+` and
one or more digits. -/
def isSignedDigits : List Char → Bool
  | '+' :: cs => !cs.isEmpty && cs.all isDecimalDigit
  | '-' :: cs => !cs.isEmpty && cs.all isDecimalDigit
  | cs => !cs.isEmpty && cs.all isDecimalDigit

/-- What may follow the digits of a valid floating-point number: nothing, or `e`/`E` and an
exponent. -/
def isExponentPart : List Char → Bool
  | [] => true
  | 'e' :: cs => isSignedDigits cs
  | 'E' :: cs => isSignedDigits cs
  | _ => false

/-- A valid floating-point number without its sign: digits, or digits `.` digits, or
`.` digits, each optionally followed by an exponent. -/
def isValidUnsignedFloat (cs : List Char) : Bool :=
  match cs.dropWhile isDecimalDigit with
  | '.' :: r =>
    !(r.takeWhile isDecimalDigit).isEmpty && isExponentPart (r.dropWhile isDecimalDigit)
  | r => !(cs.takeWhile isDecimalDigit).isEmpty && isExponentPart r

/-- The "valid floating-point number" of the HTML standard: an optional `-`, then digits
and/or a `.` followed by digits, then optionally an exponent. -/
def isValidFloatingPointNumber : List Char → Bool
  | '-' :: cs => isValidUnsignedFloat cs
  | cs => isValidUnsignedFloat cs

/-- The `value` that a field of `type="number"` reports when its content is `typed` (value
sanitisation of the HTML standard): the content when it is a valid floating-point number,
the empty string otherwise. Both amount fields are of this type (lines 197 and 355). -/
def numberFieldValue (typed : String) : String :=
  if isValidFloatingPointNumber typed.toList then typed else ""

/-! ## Data model -/

/-- A borrower record as delivered by `GET /borrowers`. -/
structure Borrower where
  id : JsValue
  name : String
  email : String
  phone : String
  loanAmount : JsValue
  deriving DecidableEq

/-- The `newBorrower` form state: a borrower without `id`. `loanAmount` starts as the number
`0` and holds the raw text of the field once the user has typed in it. -/
structure DraftBorrower where
  name : String
  email : String
  phone : String
  loanAmount : JsValue
  deriving DecidableEq

/-- The `notification` state; `isOpen` is the source's field `open`. -/
structure Notification where
  isOpen : Bool
  message : String
  type : String
  deriving DecidableEq

/-- The value a rejected request is rejected with. -/
inductive GatewayError where
  | TransportError (detail : String)
  | ValidationError (detail : String)
  | DomainError (detail : String)
  deriving DecidableEq

/-- What a `catch` block can receive: the value a request was rejected with, or the
`SyntaxError` that assigning to `window.location.href` throws for a text that is no URL. -/
inductive Caught where
  | rejection (error : GatewayError)
  | syntaxError (text : String)
  deriving DecidableEq

/-- The body of a fulfilled `POST /payments/onboard`. -/
structure OnboardResponse where
  /-- The text in `response.data`. -/
  data : String
  /-- What the browser's URL parser makes of `data` against the address of the page: the
  serialised URL, or `none` when `data` does not parse. The parser is the browser's, so its
  verdict arrives with the response. -/
  url : Option String
  deriving DecidableEq

/-- The four requests made through the axios instance `api`. -/
inductive Request where
  | getBorrowers
  | postBorrowers (body : DraftBorrower)
  | postOnboard (borrowerId : JsValue)
  | postDisburse (borrowerId : JsValue) (amount : JsNumber)
  deriving DecidableEq

/-- What the handlers touch outside React state. -/
structure Env where
  /-- The field `window.location.href`: the address the browsing context shows or is navigating to. -/
  href : String
  /-- The lines written with `console.error`, oldest first: label and logged value. -/
  console : List (String × Caught)
  /-- Every request handed to `api`, oldest first. -/
  sent : List Request
  /-- The requests that have not settled yet. -/
  inflight : List Request
  deriving DecidableEq

/-- The calls `api.get(..)` and `api.post(..)`: the request goes out and is pending. -/
def Env.send (env : Env) (r : Request) : Env :=
  { env with sent := env.sent ++ [r], inflight := env.inflight ++ [r] }

/-- The call `console.error(label, error)`. -/
def Env.consoleError (env : Env) (label : String) (error : Caught) : Env :=
  { env with console := env.console ++ [(label, error)] }

/-- A settled request leaves the pending ones. -/
def Env.settle (env : Env) (r : Request) : Env :=
  { env with inflight := env.inflight.erase r }

/-- A mounted component: its React state and its environment. -/
structure World (σ : Type) where
  state : σ
  env : Env

/-- The notification object every handler builds: `{ open: true, message, type }`. -/
def notify (message type : String) : Notification :=
  { isOpen := true, message := message, type := type }

/-! ## `BorrowerManagement` (lines 100-271) -/

/-- The three `useState` cells of `BorrowerManagement`. -/
structure BorrowerManagement where
  borrowers : List Borrower
  newBorrower : DraftBorrower
  notification : Notification
  deriving DecidableEq

namespace BorrowerManagement

/-- The initial values passed to `useState` (lines 101-112). -/
def init : BorrowerManagement :=
  { borrowers := []
    newBorrower := { name := "", email := "", phone := "", loanAmount := .num (.fin 0) }
    notification := { isOpen := false, message := "", type := "success" } }

/-- The function `fetchBorrowers` up to its `await`: `api.get("/borrowers")` (line 116). -/
def fetchBorrowers (w : World BorrowerManagement) : World BorrowerManagement :=
  { w with env := w.env.send .getBorrowers }

/-- The rest of `fetchBorrowers` once the request has settled (lines 117-125). -/
def fetchBorrowers_resume (w : World BorrowerManagement)
    (response : Except GatewayError (List Borrower)) : World BorrowerManagement :=
  match response with
  | .ok data => { w with state := { w.state with borrowers := data } }
  | .error error =>
    { state := { w.state with notification := notify "Failed to fetch borrowers" "error" }
      env := w.env.consoleError "Error fetching borrowers:" (.rejection error) }

/-- The function `createBorrower` up to its `await`: `api.post("/borrowers", newBorrower)`
(line 130). -/
def createBorrower (w : World BorrowerManagement) : World BorrowerManagement :=
  { w with env := w.env.send (.postBorrowers w.state.newBorrower) }

/-- The rest of `createBorrower` once the request has settled (lines 131-145): on success
`fetchBorrowers()` is called without `await`, so it runs up to its own request and returns,
then the draft is reset and the success notice set. -/
def createBorrower_resume (w : World BorrowerManagement)
    (response : Except GatewayError Borrower) : World BorrowerManagement :=
  match response with
  | .ok _ =>
    let w1 := fetchBorrowers w
    let w2 : World BorrowerManagement := { w1 with state := { w1.state with
      newBorrower := { name := "", email := "", phone := "", loanAmount := .num (.fin 0) } } }
    { w2 with state := { w2.state with
        notification := notify "Borrower added successfully" "success" } }
  | .error error =>
    { state := { w.state with notification := notify "Failed to create borrower" "error" }
      env := w.env.consoleError "Error creating borrower:" (.rejection error) }

/-- The `onClick` handler of a borrower card up to its `await`:
`api.post("/payments/onboard", { borrowerId: borrower.id })` (lines 236-238). -/
def onboard (w : World BorrowerManagement) (borrower : Borrower) : World BorrowerManagement :=
  { w with env := w.env.send (.postOnboard borrower.id) }

/-- The rest of the onboard handler once the request has settled (lines 239-247). The
assignment `window.location.href = response.data` is inside the `try`: it starts the
navigation when `response.data` parses as a URL and throws otherwise, and what it throws is
caught by the same `catch` block as a rejected request. -/
def onboard_resume (w : World BorrowerManagement)
    (response : Except GatewayError OnboardResponse) : World BorrowerManagement :=
  match response with
  | .ok response =>
    match response.url with
    | some url => { w with env := { w.env with href := url } }
    | none =>
      { state := { w.state with notification := notify "Error onboarding to Stripe" "error" }
        env := w.env.consoleError "Error onboarding to Stripe:" (.syntaxError response.data) }
  | .error error =>
    { state := { w.state with notification := notify "Error onboarding to Stripe" "error" }
      env := w.env.consoleError "Error onboarding to Stripe:" (.rejection error) }

/-- The function `handleCloseNotification` (lines 148-150). It is the `onClose` of the
Snackbar (lines 257-260) and takes no `reason`: it runs when the notice times out, when its
close icon is clicked, and on every click outside the notice while the notice is open. -/
def handleCloseNotification (w : World BorrowerManagement) : World BorrowerManagement :=
  { w with state := { w.state with notification := { w.state.notification with isOpen := false } } }

/-- What can happen to a mounted `BorrowerManagement`. -/
inductive Event where
  /-- The effect of lines 152-154. -/
  | mount
  | changeName (value : String)
  | changeEmail (value : String)
  | changePhone (value : String)
  /-- The content of the loan amount field becomes `typed`. -/
  | changeLoanAmount (typed : String)
  | clickAddBorrower
  | clickOnboard (borrower : Borrower)
  | closeNotification
  | getBorrowersSettled (response : Except GatewayError (List Borrower))
  | postBorrowersSettled (body : DraftBorrower) (response : Except GatewayError Borrower)
  | postOnboardSettled (borrowerId : JsValue) (response : Except GatewayError OnboardResponse)

/-- One event delivered to the component. `none`: the event cannot happen in this world (an
onboard button exists only for a listed borrower, a request settles only while pending).

A click on a button is also a click outside the Snackbar, so after the button's `onClick`
has run up to its `await`, `handleCloseNotification` runs as well (with no notice open it
changes nothing). The `change` events are the keyboard's; a click that goes with one, the
timeout of a notice and its close icon are `closeNotification` events. -/
def step (w : World BorrowerManagement) : Event → Option (World BorrowerManagement)
  | .mount => some (fetchBorrowers w)
  | .changeName value =>
    some { w with state := { w.state with newBorrower := { w.state.newBorrower with name := value } } }
  | .changeEmail value =>
    some { w with state := { w.state with newBorrower := { w.state.newBorrower with email := value } } }
  | .changePhone value =>
    some { w with state := { w.state with newBorrower := { w.state.newBorrower with phone := value } } }
  | .changeLoanAmount value =>
    some { w with state := { w.state with
      newBorrower := { w.state.newBorrower with loanAmount := .str (numberFieldValue value) } } }
  | .clickAddBorrower => some (handleCloseNotification (createBorrower w))
  | .clickOnboard borrower =>
    if borrower ∈ w.state.borrowers then some (handleCloseNotification (onboard w borrower))
    else none
  | .closeNotification => some (handleCloseNotification w)
  | .getBorrowersSettled response =>
    if Request.getBorrowers ∈ w.env.inflight then
      some (fetchBorrowers_resume { w with env := w.env.settle .getBorrowers } response)
    else none
  | .postBorrowersSettled body response =>
    if Request.postBorrowers body ∈ w.env.inflight then
      some (createBorrower_resume { w with env := w.env.settle (.postBorrowers body) } response)
    else none
  | .postOnboardSettled borrowerId response =>
    if Request.postOnboard borrowerId ∈ w.env.inflight then
      some (onboard_resume { w with env := w.env.settle (.postOnboard borrowerId) } response)
    else none

/-- A sequence of events, delivered in order. -/
def run (w : World BorrowerManagement) (events : List Event) : Option (World BorrowerManagement) :=
  events.foldlM step w

end BorrowerManagement

/-! ## `DisburseFunds` (lines 273-391) -/

/-- The four `useState` cells of `DisburseFunds`. -/
structure DisburseFunds where
  borrowers : List Borrower
  selectedBorrower : JsValue
  amount : JsNumber
  notification : Notification
  deriving DecidableEq

namespace DisburseFunds

/-- The initial values passed to `useState` (lines 274-281). -/
def init : DisburseFunds :=
  { borrowers := []
    selectedBorrower := .str ""
    amount := .fin 0
    notification := { isOpen := false, message := "", type := "success" } }

/-- The function `fetchBorrowers` up to its `await` (line 285). -/
def fetchBorrowers (w : World DisburseFunds) : World DisburseFunds :=
  { w with env := w.env.send .getBorrowers }

/-- The rest of `fetchBorrowers` once the request has settled (lines 286-294). -/
def fetchBorrowers_resume (w : World DisburseFunds)
    (response : Except GatewayError (List Borrower)) : World DisburseFunds :=
  match response with
  | .ok data => { w with state := { w.state with borrowers := data } }
  | .error error =>
    { state := { w.state with notification := notify "Failed to fetch borrowers" "error" }
      env := w.env.consoleError "Error fetching borrowers:" (.rejection error) }

/-- The function `disburseFunds` up to its `await`:
`api.post("/payments/disburse", { borrowerId: selectedBorrower, amount: amount })`
(lines 299-302). -/
def disburseFunds (w : World DisburseFunds) : World DisburseFunds :=
  { w with env := w.env.send (.postDisburse w.state.selectedBorrower w.state.amount) }

/-- The rest of `disburseFunds` once the request has settled (lines 303-317). -/
def disburseFunds_resume (w : World DisburseFunds)
    (response : Except GatewayError Unit) : World DisburseFunds :=
  match response with
  | .ok _ =>
    { w with state := { w.state with
        notification := notify "Funds disbursed successfully!" "success"
        amount := .fin 0
        selectedBorrower := .str "" } }
  | .error error =>
    { state := { w.state with notification := notify "Failed to disburse funds" "error" }
      env := w.env.consoleError "Error disbursing funds:" (.rejection error) }

/-- The function `handleCloseNotification` (lines 320-322). It is the `onClose` of the
Snackbar (lines 377-380) and takes no `reason`: it runs when the notice times out, when its
close icon is clicked, and on every click outside the notice while the notice is open. -/
def handleCloseNotification (w : World DisburseFunds) : World DisburseFunds :=
  { w with state := { w.state with notification := { w.state.notification with isOpen := false } } }

/-- The `disabled` property of the disburse button (line 371):
`!selectedBorrower || amount <= 0`. -/
def disabled (selectedBorrower : JsValue) (amount : JsNumber) : Bool :=
  !selectedBorrower.toBoolean || amount.le (.fin 0)

/-- The `onChange` handler of the amount field (line 357): `setAmount(Number(e.target.value))`,
where `value` is the text the field reports. -/
def setAmountFromText (w : World DisburseFunds) (value : String) : World DisburseFunds :=
  { w with state := { w.state with amount := Number value } }

/-- What can happen to a mounted `DisburseFunds`. -/
inductive Event where
  /-- The effect of lines 324-326. -/
  | mount
  | selectBorrower (value : JsValue)
  /-- The content of the amount field becomes `typed`. -/
  | changeAmount (typed : String)
  | clickDisburse
  | closeNotification
  | getBorrowersSettled (response : Except GatewayError (List Borrower))
  | postDisburseSettled (borrowerId : JsValue) (amount : JsNumber)
      (response : Except GatewayError Unit)

/-- One event delivered to the component. `none`: the event cannot happen in this world (the
menu offers only the ids of listed borrowers, a disabled button is not clicked, a request
settles only while pending).

A click on the button is also a click outside the Snackbar, so after `disburseFunds` has run
up to its `await`, `handleCloseNotification` runs as well (with no notice open it changes
nothing). The `change` events are the keyboard's; a click that goes with one, the timeout of
a notice and its close icon are `closeNotification` events. The amount field is of
`type="number"` (line 355): its handler receives `numberFieldValue typed`. -/
def step (w : World DisburseFunds) : Event → Option (World DisburseFunds)
  | .mount => some (fetchBorrowers w)
  | .selectBorrower value =>
    if value ∈ w.state.borrowers.map (fun borrower => borrower.id) then
      some { w with state := { w.state with selectedBorrower := value } }
    else none
  | .changeAmount typed => some (setAmountFromText w (numberFieldValue typed))
  | .clickDisburse =>
    if disabled w.state.selectedBorrower w.state.amount then none
    else some (handleCloseNotification (disburseFunds w))
  | .closeNotification => some (handleCloseNotification w)
  | .getBorrowersSettled response =>
    if Request.getBorrowers ∈ w.env.inflight then
      some (fetchBorrowers_resume { w with env := w.env.settle .getBorrowers } response)
    else none
  | .postDisburseSettled borrowerId amount response =>
    if Request.postDisburse borrowerId amount ∈ w.env.inflight then
      some (disburseFunds_resume
        { w with env := w.env.settle (.postDisburse borrowerId amount) } response)
    else none

/-- A sequence of events, delivered in order. -/
def run (w : World DisburseFunds) (events : List Event) : Option (World DisburseFunds) :=
  events.foldlM step w

end DisburseFunds

/-! ## Concrete worlds used in the examples -/

/-- The borrower of the spec's walkthroughs: id `1`, "Bob". -/
def bob : Borrower :=
  { id := .num (.fin 1), name := "Bob", email := "bob@x.com", phone := "123",
    loanAmount := .str "500.00" }

/-- A borrower whose id is the string `"b1"`. -/
def b1 : Borrower :=
  { id := .str "b1", name := "Bea", email := "bea@x.com", phone := "456",
    loanAmount := .str "250.00" }

/-- A freshly loaded page: nothing logged, nothing sent. -/
def freshEnv : Env :=
  { href := "http://localhost:3000/", console := [], sent := [], inflight := [] }

/-- A `BorrowerManagement` that lists Bob. -/
def registryWithBob : World BorrowerManagement :=
  { state := { BorrowerManagement.init with borrowers := [bob] }, env := freshEnv }

/-- A `DisburseFunds` right after its first render. -/
def disburseFresh : World DisburseFunds :=
  { state := DisburseFunds.init, env := freshEnv }

/-- The draft from which Bob was created. -/
def bobDraft : DraftBorrower :=
  { name := "Bob", email := "bob@x.com", phone := "123", loanAmount := .str "500.00" }

/-- The events that lead from the first render to `registryNotified`: the initial Load returns
nothing, the operator types Bob's data and clicks "Add Borrower", the create succeeds and
the reload returns Bob. -/
def createBobEvents : List BorrowerManagement.Event :=
  [.mount, .getBorrowersSettled (.ok []), .changeName "Bob", .changeEmail "bob@x.com",
   .changePhone "123", .changeLoanAmount "500.00", .clickAddBorrower,
   .postBorrowersSettled bobDraft (.ok bob), .getBorrowersSettled (.ok [bob])]

/-- A `BorrowerManagement` that lists Bob and still shows the notice of his creation. -/
def registryNotified : World BorrowerManagement :=
  { state :=
      { borrowers := [bob]
        newBorrower := BorrowerManagement.init.newBorrower
        notification :=
          { isOpen := true, message := "Borrower added successfully", type := "success" } }
    env :=
      { href := "http://localhost:3000/"
        console := []
        sent := [.getBorrowers, .postBorrowers bobDraft, .getBorrowers]
        inflight := [] } }

/-- A `DisburseFunds` whose Load has returned `b1`. -/
def disburseLoaded : World DisburseFunds :=
  { state := { DisburseFunds.init with borrowers := [b1] }
    env := { href := "http://localhost:3000/", console := [], sent := [.getBorrowers],
             inflight := [] } }

/-- The redirect address of the spec's walkthrough, as the processor sends it and as the
browser parses it. -/
def onboardRedirect : OnboardResponse :=
  { data := "https://processor.example/onboard/abc"
    url := some "https://processor.example/onboard/abc" }

/-! ## Facts about the gate and about `Number` -/

/-- For an amount that is a number (not `NaN`) and a string selection, the button is enabled
exactly when the selection is non-empty and the amount is positive. -/
theorem disabled_eq_false_iff_of_ne_nan (s : String) (a : JsNumber) (h : a ≠ .nan) :
    DisburseFunds.disabled (.str s) a = false ↔ (s ≠ "" ∧ a.gt (.fin 0) = true) := by
  cases a <;> simp_all [DisburseFunds.disabled, JsValue.toBoolean, JsNumber.le, JsNumber.gt]

/-- With the empty selection the button is disabled, whatever the amount. -/
theorem disabled_of_empty_selection (a : JsNumber) :
    DisburseFunds.disabled (.str "") a = true := by
  simp [DisburseFunds.disabled, JsValue.toBoolean]

/-- With an amount `<= 0` the button is disabled, whatever the selection. -/
theorem disabled_of_le_zero (sel : JsValue) (a : JsNumber) (h : a.le (.fin 0) = true) :
    DisburseFunds.disabled sel a = true := by
  simp [DisburseFunds.disabled, h]

/-- With `"b1"` selected and amount `100` the button is enabled. -/
theorem enabled_b1_100 : DisburseFunds.disabled (.str "b1") (.fin 100) = false := by
  simp [DisburseFunds.disabled, JsValue.toBoolean, JsNumber.le]

/-- The empty text is coerced to `0`. -/
theorem Number_empty : Number "" = .fin 0 := by
  rfl


/-! ## `Number` on the value of a number field -/

theorem isStrWhiteSpaceChar_of_isDecimalDigit (c : Char) (h : isDecimalDigit c = true) :
    isStrWhiteSpaceChar c = false := by
  simp only [isDecimalDigit, Bool.and_eq_true, decide_eq_true_eq] at h
  simp only [isStrWhiteSpaceChar, List.mem_cons, List.mem_singleton, Bool.or_eq_false_iff,
    decide_eq_false_iff_not, Bool.and_eq_false_iff, List.not_mem_nil]
  simp only [or_false]
  refine ⟨?_, ?_⟩ <;> omega

theorem digitValue_of_isDecimalDigit (c : Char) (h : isDecimalDigit c = true) :
    ∃ d, digitValue c = some d ∧ d < 10 := by
  simp only [isDecimalDigit, Bool.and_eq_true, decide_eq_true_eq] at h
  refine ⟨c.toNat - 48, ?_, by omega⟩
  simp [digitValue, h]

theorem readDigits_isSome (cs : List Char) (h : ∀ c ∈ cs, isDecimalDigit c = true) (acc : Nat) :
    (readDigits 10 acc cs).isSome = true := by
  induction cs generalizing acc with
  | nil => simp [readDigits]
  | cons c cs ih =>
    obtain ⟨d, hd, hlt⟩ := digitValue_of_isDecimalDigit c (h c (List.mem_cons_self c cs))
    simp only [readDigits, hd, hlt, if_true]
    exact ih (fun x hx => h x (List.mem_cons_of_mem c hx)) _

theorem parseDigits_isSome (cs : List Char) (hne : cs ≠ [])
    (h : ∀ c ∈ cs, isDecimalDigit c = true) : (parseDigits 10 cs).isSome = true := by
  simp only [parseDigits, hne, if_false]
  exact readDigits_isSome cs h 0

theorem allDigits_of_isSignedDigits_body (cs : List Char)
    (h : (!cs.isEmpty && cs.all isDecimalDigit) = true) :
    cs ≠ [] ∧ ∀ c ∈ cs, isDecimalDigit c = true := by
  simp only [Bool.and_eq_true, Bool.not_eq_true', List.isEmpty_eq_false, List.all_eq_true] at h
  exact ⟨by simpa using h.1, h.2⟩

theorem parseSignedInteger_isSome (cs : List Char) (h : isSignedDigits cs = true) :
    (parseSignedInteger cs).isSome = true := by
  unfold isSignedDigits at h
  unfold parseSignedInteger
  split at h <;>
    · obtain ⟨hne, hd⟩ := allDigits_of_isSignedDigits_body _ h
      simp [parseDigits_isSome _ hne hd]

theorem exponent_isSome (t : List Char) (h : isExponentPart t = true) :
    (match t with
      | [] => some (0 : Int)
      | 'e' :: r => parseSignedInteger r
      | 'E' :: r => parseSignedInteger r
      | _ => none).isSome = true := by
  unfold isExponentPart at h
  split at h
  · rfl
  · exact parseSignedInteger_isSome _ h
  · exact parseSignedInteger_isSome _ h
  · exact absurd h (by simp)

theorem parseUnsignedDecimal_isSome (cs : List Char) (h : isValidUnsignedFloat cs = true) :
    (parseUnsignedDecimal cs).isSome = true := by
  unfold isValidUnsignedFloat at h
  unfold parseUnsignedDecimal
  have hip : ∀ c ∈ cs.takeWhile isDecimalDigit, isDecimalDigit c = true :=
    fun c hc => List.mem_takeWhile_imp hc
  split at h
  · rename_i r hr
    simp only [Bool.and_eq_true, Bool.not_eq_true', List.isEmpty_eq_false] at h
    have hfp : ∀ c ∈ r.takeWhile isDecimalDigit, isDecimalDigit c = true :=
      fun c hc => List.mem_takeWhile_imp hc
    have hall : ∀ c ∈ cs.takeWhile isDecimalDigit ++ r.takeWhile isDecimalDigit,
        isDecimalDigit c = true := by
      intro c hc
      rcases List.mem_append.1 hc with hc | hc
      · exact hip c hc
      · exact hfp c hc
    obtain ⟨m, hm⟩ := Option.isSome_iff_exists.1 (readDigits_isSome _ hall 0)
    obtain ⟨e, he⟩ := Option.isSome_iff_exists.1 (exponent_isSome _ h.2)
    have hne : r.takeWhile isDecimalDigit ≠ [] := by
      intro hnil
      simp [hnil] at h
    simp [hr, hm, he, hne]
  · rename_i r hr
    simp only [Bool.and_eq_true, Bool.not_eq_true', List.isEmpty_eq_false] at h
    have hsplit : (match List.dropWhile isDecimalDigit cs with
        | '.' :: r => (List.takeWhile isDecimalDigit r, List.dropWhile isDecimalDigit r)
        | r => ([], r)) = (([] : List Char), List.dropWhile isDecimalDigit cs) := by
      split
      · rename_i r' hr'
        exact absurd hr' (hr r')
      · rfl
    obtain ⟨m, hm⟩ := Option.isSome_iff_exists.1 (readDigits_isSome _ hip 0)
    obtain ⟨e, he⟩ := Option.isSome_iff_exists.1 (exponent_isSome _ h.2)
    have hne : cs.takeWhile isDecimalDigit ≠ [] := by
      intro hnil
      simp [hnil] at h
    simp [hsplit, hm, he, hne]

theorem roundToDouble_ne_nan (x : ℚ) : roundToDouble x ≠ .nan := by
  unfold roundToDouble
  split
  · simp
  · simp only
    split
    · split <;> simp
    · simp

theorem parseUnsigned_ne_nan (cs : List Char) (h : isValidUnsignedFloat cs = true) :
    parseUnsigned cs ≠ .nan := by
  unfold parseUnsigned
  split
  · simp
  · obtain ⟨q, hq⟩ := Option.isSome_iff_exists.1 (parseUnsignedDecimal_isSome cs h)
    simp only [hq]
    exact roundToDouble_ne_nan q

theorem neg_ne_nan (a : JsNumber) (h : a ≠ .nan) : a.neg ≠ .nan := by
  cases a <;> simp_all [JsNumber.neg]

theorem parseNumericLiteral_ne_nan (cs : List Char) (h : isValidFloatingPointNumber cs = true) :
    parseNumericLiteral cs ≠ .nan := by
  unfold parseNumericLiteral
  split
  · simp
  · exact absurd h (by simp [isValidFloatingPointNumber, isValidUnsignedFloat, isDecimalDigit, isExponentPart, List.dropWhile, List.takeWhile])
  · exact absurd h (by simp [isValidFloatingPointNumber, isValidUnsignedFloat, isDecimalDigit, isExponentPart, List.dropWhile, List.takeWhile])
  · exact absurd h (by simp [isValidFloatingPointNumber, isValidUnsignedFloat, isDecimalDigit, isExponentPart, List.dropWhile, List.takeWhile])
  · exact absurd h (by simp [isValidFloatingPointNumber, isValidUnsignedFloat, isDecimalDigit, isExponentPart, List.dropWhile, List.takeWhile])
  · exact absurd h (by simp [isValidFloatingPointNumber, isValidUnsignedFloat, isDecimalDigit, isExponentPart, List.dropWhile, List.takeWhile])
  · exact absurd h (by simp [isValidFloatingPointNumber, isValidUnsignedFloat, isDecimalDigit, isExponentPart, List.dropWhile, List.takeWhile])
  · exact absurd h (by simp [isValidFloatingPointNumber, isValidUnsignedFloat, isDecimalDigit, isExponentPart, List.dropWhile, List.takeWhile])
  · exact neg_ne_nan _ (parseUnsigned_ne_nan _ (by simpa [isValidFloatingPointNumber] using h))
  · refine parseUnsigned_ne_nan _ ?_
    unfold isValidFloatingPointNumber at h
    split at h
    · rename_i hminus
      exact absurd rfl (hminus _)
    · exact h

theorem noSpace_of_isSignedDigits (cs : List Char) (h : isSignedDigits cs = true) :
    ∀ c ∈ cs, isStrWhiteSpaceChar c = false := by
  unfold isSignedDigits at h
  split at h
  · intro c hc
    rcases List.mem_cons.1 hc with rfl | hc
    · decide
    · exact isStrWhiteSpaceChar_of_isDecimalDigit c
        ((allDigits_of_isSignedDigits_body _ h).2 c hc)
  · intro c hc
    rcases List.mem_cons.1 hc with rfl | hc
    · decide
    · exact isStrWhiteSpaceChar_of_isDecimalDigit c
        ((allDigits_of_isSignedDigits_body _ h).2 c hc)
  · intro c hc
    exact isStrWhiteSpaceChar_of_isDecimalDigit c
      ((allDigits_of_isSignedDigits_body _ h).2 c hc)

theorem noSpace_of_isExponentPart (t : List Char) (h : isExponentPart t = true) :
    ∀ c ∈ t, isStrWhiteSpaceChar c = false := by
  unfold isExponentPart at h
  split at h
  · simp
  · intro c hc
    rcases List.mem_cons.1 hc with rfl | hc
    · decide
    · exact noSpace_of_isSignedDigits _ h c hc
  · intro c hc
    rcases List.mem_cons.1 hc with rfl | hc
    · decide
    · exact noSpace_of_isSignedDigits _ h c hc
  · exact absurd h (by simp)

theorem noSpace_of_isValidUnsignedFloat (cs : List Char) (h : isValidUnsignedFloat cs = true) :
    ∀ c ∈ cs, isStrWhiteSpaceChar c = false := by
  unfold isValidUnsignedFloat at h
  intro c hc
  rw [← List.takeWhile_append_dropWhile isDecimalDigit cs] at hc
  rcases List.mem_append.1 hc with hc | hc
  · exact isStrWhiteSpaceChar_of_isDecimalDigit c (List.mem_takeWhile_imp hc)
  · split at h
    · rename_i r hr
      simp only [Bool.and_eq_true] at h
      rw [hr] at hc
      rcases List.mem_cons.1 hc with rfl | hc
      · decide
      · rw [← List.takeWhile_append_dropWhile isDecimalDigit r] at hc
        rcases List.mem_append.1 hc with hc | hc
        · exact isStrWhiteSpaceChar_of_isDecimalDigit c (List.mem_takeWhile_imp hc)
        · exact noSpace_of_isExponentPart _ h.2 c hc
    · simp only [Bool.and_eq_true] at h
      exact noSpace_of_isExponentPart _ h.2 c hc

theorem noSpace_of_isValidFloatingPointNumber (cs : List Char)
    (h : isValidFloatingPointNumber cs = true) : ∀ c ∈ cs, isStrWhiteSpaceChar c = false := by
  unfold isValidFloatingPointNumber at h
  split at h
  · intro c hc
    rcases List.mem_cons.1 hc with rfl | hc
    · decide
    · exact noSpace_of_isValidUnsignedFloat _ h c hc
  · exact noSpace_of_isValidUnsignedFloat _ h

theorem dropWhile_eq_self_of_noSpace (cs : List Char)
    (h : ∀ c ∈ cs, isStrWhiteSpaceChar c = false) :
    cs.dropWhile isStrWhiteSpaceChar = cs := by
  cases cs with
  | nil => rfl
  | cons c cs => simp [List.dropWhile, h c (List.mem_cons_self c cs)]

/-- A valid floating-point number is a numeric literal: `Number` of it is not `NaN`. -/
theorem Number_ne_nan_of_valid (text : String)
    (h : isValidFloatingPointNumber text.toList = true) : Number text ≠ .nan := by
  have hns := noSpace_of_isValidFloatingPointNumber _ h
  have hrev : ∀ c ∈ text.toList.reverse, isStrWhiteSpaceChar c = false :=
    fun c hc => hns c (List.mem_reverse.1 hc)
  unfold Number
  rw [dropWhile_eq_self_of_noSpace _ hns, dropWhile_eq_self_of_noSpace _ hrev,
    List.reverse_reverse]
  exact parseNumericLiteral_ne_nan _ h

/-- The amount field never delivers a text that `Number` turns into `NaN`. -/
theorem Number_numberFieldValue_ne_nan (typed : String) :
    Number (numberFieldValue typed) ≠ .nan := by
  unfold numberFieldValue
  split
  · rename_i h
    exact Number_ne_nan_of_valid typed h
  · intro h
    exact absurd h (by decide)


/-- A text the amount field cannot accept as a number is not a numeric literal for `Number`
either: whenever `Number text` is `NaN`, the field reports `""` for `text`. -/
theorem numberFieldValue_of_Number_eq_nan (text : String) (h : Number text = .nan) :
    numberFieldValue text = "" := by
  unfold numberFieldValue
  split
  · rename_i hv
    exact absurd h (Number_ne_nan_of_valid text hv)
  · rfl

/-- No event turns an amount that is a number into `NaN`. -/
theorem step_amount_ne_nan (v v' : World DisburseFunds) (ev : DisburseFunds.Event)
    (h : v.state.amount ≠ .nan) (hs : DisburseFunds.step v ev = some v') :
    v'.state.amount ≠ .nan := by
  cases ev with
  | mount =>
    simp only [DisburseFunds.step, Option.some.injEq] at hs
    subst hs
    exact h
  | selectBorrower value =>
    simp only [DisburseFunds.step] at hs
    split at hs
    · simp only [Option.some.injEq] at hs
      subst hs
      exact h
    · exact absurd hs (by simp)
  | changeAmount typed =>
    simp only [DisburseFunds.step, Option.some.injEq] at hs
    subst hs
    exact Number_numberFieldValue_ne_nan typed
  | clickDisburse =>
    simp only [DisburseFunds.step] at hs
    split at hs
    · exact absurd hs (by simp)
    · simp only [Option.some.injEq] at hs
      subst hs
      exact h
  | closeNotification =>
    simp only [DisburseFunds.step, Option.some.injEq] at hs
    subst hs
    exact h
  | getBorrowersSettled response =>
    simp only [DisburseFunds.step] at hs
    split at hs
    · simp only [Option.some.injEq] at hs
      subst hs
      cases response <;> exact h
    · exact absurd hs (by simp)
  | postDisburseSettled borrowerId amount response =>
    simp only [DisburseFunds.step] at hs
    split at hs
    · simp only [Option.some.injEq] at hs
      subst hs
      cases response
      · exact h
      · simp [DisburseFunds.disburseFunds_resume]
    · exact absurd hs (by simp)

/-- The amount a `DisburseFunds` holds is never `NaN`: it starts as `0`, and it stays a number
along every sequence of events. -/
theorem amount_ne_nan_of_run (events : List DisburseFunds.Event) (v v' : World DisburseFunds)
    (h : v.state.amount ≠ .nan) (hr : DisburseFunds.run v events = some v') :
    v'.state.amount ≠ .nan := by
  induction events generalizing v with
  | nil =>
    simp only [DisburseFunds.run, List.foldlM, pure, Option.some.injEq] at hr
    subst hr
    exact h
  | cons ev events ih =>
    simp only [DisburseFunds.run, List.foldlM, bind, Option.bind] at hr
    cases hstep : DisburseFunds.step v ev with
    | none => simp [hstep] at hr
    | some v1 =>
      simp only [hstep] at hr
      exact ih v1 (step_amount_ne_nan v v1 ev h hstep) hr

/-- The world `registryNotified` is what the first render becomes along `createBobEvents`. -/
theorem registryNotified_reached :
    BorrowerManagement.run { state := BorrowerManagement.init, env := freshEnv }
      createBobEvents = some registryNotified := by
  have hv : numberFieldValue "500.00" = "500.00" := by decide
  simp [BorrowerManagement.run, BorrowerManagement.step, createBobEvents,
    BorrowerManagement.handleCloseNotification, BorrowerManagement.fetchBorrowers,
    BorrowerManagement.fetchBorrowers_resume, BorrowerManagement.createBorrower,
    BorrowerManagement.createBorrower_resume, BorrowerManagement.init, Env.send, Env.settle,
    notify, registryNotified, freshEnv, bobDraft, hv]

/-- The world `disburseLoaded` is what the first render becomes once its Load has returned. -/
theorem disburseLoaded_reached :
    DisburseFunds.run disburseFresh [.mount, .getBorrowersSettled (.ok [b1])] =
      some disburseLoaded := by
  simp [DisburseFunds.run, DisburseFunds.step, DisburseFunds.fetchBorrowers,
    DisburseFunds.fetchBorrowers_resume, Env.send, Env.settle, disburseFresh, disburseLoaded,
    freshEnv]

/-! ## The claims -/

/-- C2. Load failure is non-destructive, in both controllers: when the request of a Load
(here the one started on mount) is rejected with any error, the component state afterwards
is the prior state with the notification replaced by
`{ open: true, message: "Failed to fetch borrowers", type: "error" }`; in particular the
borrower collection is the one held before. -/
theorem load_failure_non_destructive (w : World BorrowerManagement) (v : World DisburseFunds)
    (e : GatewayError) :
    (BorrowerManagement.run w [.mount, .getBorrowersSettled (.error e)]).map
        (fun w' => (w'.state.borrowers, w'.state.notification, w'.state.newBorrower)) =
      some (w.state.borrowers,
        { isOpen := true, message := "Failed to fetch borrowers", type := "error" },
        w.state.newBorrower) ∧
    (DisburseFunds.run v [.mount, .getBorrowersSettled (.error e)]).map
        (fun v' => (v'.state.borrowers, v'.state.notification, v'.state.selectedBorrower,
          v'.state.amount)) =
      some (v.state.borrowers,
        { isOpen := true, message := "Failed to fetch borrowers", type := "error" },
        v.state.selectedBorrower, v.state.amount) := by
  constructor
  · simp [BorrowerManagement.run, BorrowerManagement.step,
      BorrowerManagement.handleCloseNotification, BorrowerManagement.fetchBorrowers,
      BorrowerManagement.fetchBorrowers_resume, Env.send, Env.settle, Env.consoleError, notify]
  · simp [DisburseFunds.run, DisburseFunds.step, DisburseFunds.handleCloseNotification, DisburseFunds.fetchBorrowers,
      DisburseFunds.fetchBorrowers_resume, Env.send, Env.settle, Env.consoleError, notify]

/-- C3. Cache replace, in both controllers: when the request of a Load is fulfilled with the
sequence `L`, the component state afterwards is the prior state with `borrowers` equal to `L`
(same elements, same order, nothing of the prior collection) and every other field as it
was. -/
theorem load_success_replaces_cache (w : World BorrowerManagement) (v : World DisburseFunds)
    (L : List Borrower) :
    (BorrowerManagement.run w [.mount, .getBorrowersSettled (.ok L)]).map (fun w' => w'.state) =
      some { borrowers := L, newBorrower := w.state.newBorrower,
             notification := w.state.notification } ∧
    (DisburseFunds.run v [.mount, .getBorrowersSettled (.ok L)]).map (fun v' => v'.state) =
      some { borrowers := L, selectedBorrower := v.state.selectedBorrower,
             amount := v.state.amount, notification := v.state.notification } := by
  constructor
  · simp [BorrowerManagement.run, BorrowerManagement.step,
      BorrowerManagement.handleCloseNotification, BorrowerManagement.fetchBorrowers,
      BorrowerManagement.fetchBorrowers_resume, Env.send, Env.settle]
  · simp [DisburseFunds.run, DisburseFunds.step, DisburseFunds.handleCloseNotification, DisburseFunds.fetchBorrowers,
      DisburseFunds.fetchBorrowers_resume, Env.send, Env.settle]

/-- C1. Input is preserved on failure. Submit whose create request is rejected leaves
`newBorrower` as it was before the click. `disburseFunds` whose request is rejected leaves
`selectedBorrower` and `amount` as they were, for every request; delivered through the
button, the same holds whenever the button is enabled (a disabled button is not clicked). -/
theorem input_preserved_on_failure (w : World BorrowerManagement) (v : World DisburseFunds)
    (e e' : GatewayError) :
    (BorrowerManagement.run w
        [.clickAddBorrower, .postBorrowersSettled w.state.newBorrower (.error e)]).map
        (fun w' => w'.state.newBorrower) = some w.state.newBorrower ∧
    ((DisburseFunds.disburseFunds_resume (DisburseFunds.disburseFunds v)
        (.error e')).state.selectedBorrower = v.state.selectedBorrower ∧
     (DisburseFunds.disburseFunds_resume (DisburseFunds.disburseFunds v)
        (.error e')).state.amount = v.state.amount) ∧
    (DisburseFunds.run v [.clickDisburse,
        .postDisburseSettled v.state.selectedBorrower v.state.amount (.error e')]).map
        (fun v' => (v'.state.selectedBorrower, v'.state.amount)) =
      if DisburseFunds.disabled v.state.selectedBorrower v.state.amount then none
      else some (v.state.selectedBorrower, v.state.amount) := by
  refine ⟨?_, ⟨rfl, rfl⟩, ?_⟩
  · simp [BorrowerManagement.run, BorrowerManagement.step,
      BorrowerManagement.handleCloseNotification, BorrowerManagement.createBorrower,
      BorrowerManagement.createBorrower_resume, Env.send, Env.settle, Env.consoleError]
  · by_cases h : DisburseFunds.disabled v.state.selectedBorrower v.state.amount = true <;>
      simp [DisburseFunds.run, DisburseFunds.step, DisburseFunds.handleCloseNotification, DisburseFunds.disburseFunds,
        DisburseFunds.disburseFunds_resume, Env.send, Env.settle, Env.consoleError, h]

/-- C4. Create reset. Submit sends `POST /borrowers` with the draft as it stands; when that
request is fulfilled, the draft is `{ name: "", email: "", phone: "", loanAmount: 0 }`, the
notification is the success notice, and exactly one `GET /borrowers` has been sent, after
the create; when that Load is fulfilled with `L`, `borrowers` is `L` and draft and
notification are still the defaults and the success notice. -/
theorem create_success_resets_and_reloads (w : World BorrowerManagement) (b : Borrower)
    (L : List Borrower) :
    (BorrowerManagement.run w [.clickAddBorrower]).map (fun w' => w'.env.sent) =
      some (w.env.sent ++ [.postBorrowers w.state.newBorrower]) ∧
    (BorrowerManagement.run w
        [.clickAddBorrower, .postBorrowersSettled w.state.newBorrower (.ok b)]).map
        (fun w' => (w'.state, w'.env.sent)) =
      some ({ borrowers := w.state.borrowers,
              newBorrower := { name := "", email := "", phone := "", loanAmount := .num (.fin 0) },
              notification :=
                { isOpen := true, message := "Borrower added successfully", type := "success" } },
            w.env.sent ++ [.postBorrowers w.state.newBorrower, .getBorrowers]) ∧
    (BorrowerManagement.run w
        [.clickAddBorrower, .postBorrowersSettled w.state.newBorrower (.ok b),
         .getBorrowersSettled (.ok L)]).map (fun w' => (w'.state, w'.env.sent)) =
      some ({ borrowers := L,
              newBorrower := { name := "", email := "", phone := "", loanAmount := .num (.fin 0) },
              notification :=
                { isOpen := true, message := "Borrower added successfully", type := "success" } },
            w.env.sent ++ [.postBorrowers w.state.newBorrower, .getBorrowers]) := by
  refine ⟨?_, ?_, ?_⟩ <;>
    simp [BorrowerManagement.run, BorrowerManagement.step,
      BorrowerManagement.handleCloseNotification, BorrowerManagement.fetchBorrowers,
      BorrowerManagement.createBorrower, BorrowerManagement.createBorrower_resume,
      BorrowerManagement.fetchBorrowers_resume, Env.send, Env.settle, notify]

/-- C5. Disbursement success reset. `disburseFunds` sends
`{ borrowerId: selectedBorrower, amount }` as held before the call and nothing else; when
the request is fulfilled, the request fields are `""` and `0`, the notification is
`{ open: true, message: "Funds disbursed successfully!", type: "success" }` and `borrowers` is
untouched. Delivered through the button, the same holds whenever the button is enabled. -/
theorem disburse_success_resets_request (v : World DisburseFunds) :
    ((DisburseFunds.disburseFunds_resume (DisburseFunds.disburseFunds v) (.ok ())).state =
        { borrowers := v.state.borrowers, selectedBorrower := .str "", amount := .fin 0,
          notification :=
            { isOpen := true, message := "Funds disbursed successfully!", type := "success" } } ∧
     (DisburseFunds.disburseFunds_resume (DisburseFunds.disburseFunds v) (.ok ())).env.sent =
        v.env.sent ++ [.postDisburse v.state.selectedBorrower v.state.amount]) ∧
    (DisburseFunds.run v [.clickDisburse,
        .postDisburseSettled v.state.selectedBorrower v.state.amount (.ok ())]).map
        (fun v' => (v'.state, v'.env.sent)) =
      if DisburseFunds.disabled v.state.selectedBorrower v.state.amount then none
      else some ({ borrowers := v.state.borrowers, selectedBorrower := .str "", amount := .fin 0,
                   notification := { isOpen := true, message := "Funds disbursed successfully!",
                                     type := "success" } },
                 v.env.sent ++ [.postDisburse v.state.selectedBorrower v.state.amount]) := by
  refine ⟨⟨rfl, rfl⟩, ?_⟩
  by_cases h : DisburseFunds.disabled v.state.selectedBorrower v.state.amount = true <;>
    simp [DisburseFunds.run, DisburseFunds.step, DisburseFunds.handleCloseNotification, DisburseFunds.disburseFunds,
      DisburseFunds.disburseFunds_resume, Env.send, Env.settle, notify, h]

/-- C8. Failures collapse to a fixed message. For Load (in either component), Submit, Onboard
and Disburse, the component state after a rejected request does not depend on the value the
request was rejected with, and its notification is `{ open: true, type: "error" }` with the
fixed text of the action. -/
theorem failures_collapse_to_fixed_message (w : World BorrowerManagement)
    (v : World DisburseFunds) (b : Borrower) (e1 e2 : GatewayError) :
    ((BorrowerManagement.fetchBorrowers_resume (BorrowerManagement.fetchBorrowers w)
          (.error e1)).state =
        (BorrowerManagement.fetchBorrowers_resume (BorrowerManagement.fetchBorrowers w)
          (.error e2)).state ∧
      (BorrowerManagement.fetchBorrowers_resume (BorrowerManagement.fetchBorrowers w)
          (.error e1)).state.notification =
        { isOpen := true, message := "Failed to fetch borrowers", type := "error" }) ∧
    ((DisburseFunds.fetchBorrowers_resume (DisburseFunds.fetchBorrowers v) (.error e1)).state =
        (DisburseFunds.fetchBorrowers_resume (DisburseFunds.fetchBorrowers v) (.error e2)).state ∧
      (DisburseFunds.fetchBorrowers_resume (DisburseFunds.fetchBorrowers v)
          (.error e1)).state.notification =
        { isOpen := true, message := "Failed to fetch borrowers", type := "error" }) ∧
    ((BorrowerManagement.createBorrower_resume (BorrowerManagement.createBorrower w)
          (.error e1)).state =
        (BorrowerManagement.createBorrower_resume (BorrowerManagement.createBorrower w)
          (.error e2)).state ∧
      (BorrowerManagement.createBorrower_resume (BorrowerManagement.createBorrower w)
          (.error e1)).state.notification =
        { isOpen := true, message := "Failed to create borrower", type := "error" }) ∧
    ((BorrowerManagement.onboard_resume (BorrowerManagement.onboard w b) (.error e1)).state =
        (BorrowerManagement.onboard_resume (BorrowerManagement.onboard w b) (.error e2)).state ∧
      (BorrowerManagement.onboard_resume (BorrowerManagement.onboard w b)
          (.error e1)).state.notification =
        { isOpen := true, message := "Error onboarding to Stripe", type := "error" }) ∧
    ((DisburseFunds.disburseFunds_resume (DisburseFunds.disburseFunds v) (.error e1)).state =
        (DisburseFunds.disburseFunds_resume (DisburseFunds.disburseFunds v) (.error e2)).state ∧
      (DisburseFunds.disburseFunds_resume (DisburseFunds.disburseFunds v)
          (.error e1)).state.notification =
        { isOpen := true, message := "Failed to disburse funds", type := "error" }) := by
  refine ⟨⟨rfl, rfl⟩, ⟨rfl, rfl⟩, ⟨rfl, rfl⟩, ⟨rfl, rfl⟩, ⟨rfl, rfl⟩⟩

/-- C10. Successful create followed by a failed reload. After the create request is
fulfilled the notification is the success notice; when the Load that Submit started is then
rejected, the draft is the defaults, `borrowers` is what it was before Submit, and the
notification is `{ open: true, message: "Failed to fetch borrowers", type: "error" }`, which
has replaced the success notice. -/
theorem create_then_failed_reload (w : World BorrowerManagement) (b : Borrower)
    (e : GatewayError) :
    (BorrowerManagement.run w
        [.clickAddBorrower, .postBorrowersSettled w.state.newBorrower (.ok b)]).map
        (fun w' => w'.state.notification) =
      some { isOpen := true, message := "Borrower added successfully", type := "success" } ∧
    (BorrowerManagement.run w
        [.clickAddBorrower, .postBorrowersSettled w.state.newBorrower (.ok b),
         .getBorrowersSettled (.error e)]).map (fun w' => w'.state) =
      some { borrowers := w.state.borrowers,
             newBorrower := { name := "", email := "", phone := "", loanAmount := .num (.fin 0) },
             notification :=
               { isOpen := true, message := "Failed to fetch borrowers", type := "error" } } := by
  refine ⟨?_, ?_⟩ <;>
    simp [BorrowerManagement.run, BorrowerManagement.step,
      BorrowerManagement.handleCloseNotification, BorrowerManagement.fetchBorrowers,
      BorrowerManagement.createBorrower, BorrowerManagement.createBorrower_resume,
      BorrowerManagement.fetchBorrowers_resume, Env.send, Env.settle, Env.consoleError, notify]

/-- C9, at a world where a notice is still open: Bob is listed and the notice of the last
create is showing. After the click on Onboard and the fulfilled request the browsing context
is on its way to the returned address, but the notification is not what it was: the click
has set its `open` to `false`. -/
theorem onboard_click_closes_open_notice :
    bob ∈ registryNotified.state.borrowers ∧
    (BorrowerManagement.run registryNotified
        [.clickOnboard bob, .postOnboardSettled bob.id (.ok onboardRedirect)]).map
        (fun w' => (w'.env.href, w'.state.notification)) =
      some ("https://processor.example/onboard/abc",
        { isOpen := false, message := "Borrower added successfully", type := "success" }) ∧
    (BorrowerManagement.run registryNotified
        [.clickOnboard bob, .postOnboardSettled bob.id (.ok onboardRedirect)]).map
        (fun w' => w'.state.notification) ≠ some registryNotified.state.notification := by
  refine ⟨by simp [registryNotified], ?_, ?_⟩ <;>
    simp [BorrowerManagement.run, BorrowerManagement.step,
      BorrowerManagement.handleCloseNotification, BorrowerManagement.onboard,
      BorrowerManagement.onboard_resume, Env.send, Env.settle, registryNotified,
      onboardRedirect, bob]

/-- C9, amended. For a listed borrower, the click sends `POST /payments/onboard` with that
borrower's id and nothing else, and closes an open notice (`open` becomes `false`, message
and type stay). When the request is fulfilled with a text that parses as a URL,
`window.location.href` is that URL and borrowers, draft, and the message and type of the
notification are as before the click. When the text does not parse, or the request is
rejected, `href` is what it was and the notification is
`{ open: true, message: "Error onboarding to Stripe", type: "error" }`. -/
theorem onboard_navigates_to_redirect (w : World BorrowerManagement) (b : Borrower)
    (h : b ∈ w.state.borrowers) (u target : String) (e : GatewayError) :
    (BorrowerManagement.run w [.clickOnboard b]).map
        (fun w' => (w'.env.sent, w'.env.href, w'.state)) =
      some (w.env.sent ++ [.postOnboard b.id], w.env.href,
        { w.state with notification := { w.state.notification with isOpen := false } }) ∧
    (BorrowerManagement.run w
        [.clickOnboard b, .postOnboardSettled b.id (.ok { data := u, url := some target })]).map
        (fun w' => (w'.env.href, w'.state, w'.env.sent)) =
      some (target,
        { w.state with notification := { w.state.notification with isOpen := false } },
        w.env.sent ++ [.postOnboard b.id]) ∧
    (BorrowerManagement.run w
        [.clickOnboard b, .postOnboardSettled b.id (.ok { data := u, url := none })]).map
        (fun w' => (w'.env.href, w'.state)) =
      some (w.env.href,
        { w.state with notification :=
            { isOpen := true, message := "Error onboarding to Stripe", type := "error" } }) ∧
    (BorrowerManagement.run w [.clickOnboard b, .postOnboardSettled b.id (.error e)]).map
        (fun w' => (w'.env.href, w'.state)) =
      some (w.env.href,
        { w.state with notification :=
            { isOpen := true, message := "Error onboarding to Stripe", type := "error" } }) := by
  refine ⟨?_, ?_, ?_, ?_⟩ <;>
    simp [BorrowerManagement.run, BorrowerManagement.step,
      BorrowerManagement.handleCloseNotification, BorrowerManagement.onboard,
      BorrowerManagement.onboard_resume, Env.send, Env.settle, Env.consoleError, notify, h]

/-- Witness of C9 as amended: Bob (id `1`) is listed, a notice is open, the processor answers
`"https://processor.example/onboard/abc"`. -/
theorem onboard_navigates_to_redirect_witness :
    bob ∈ registryNotified.state.borrowers ∧
    ((BorrowerManagement.run registryNotified [.clickOnboard bob]).map
        (fun w' => (w'.env.sent, w'.env.href, w'.state)) =
      some (registryNotified.env.sent ++ [.postOnboard bob.id], registryNotified.env.href,
        { registryNotified.state with
            notification := { registryNotified.state.notification with isOpen := false } }) ∧
    (BorrowerManagement.run registryNotified
        [.clickOnboard bob,
         .postOnboardSettled bob.id
           (.ok { data := "https://processor.example/onboard/abc",
                  url := some "https://processor.example/onboard/abc" })]).map
        (fun w' => (w'.env.href, w'.state, w'.env.sent)) =
      some ("https://processor.example/onboard/abc",
        { registryNotified.state with
            notification := { registryNotified.state.notification with isOpen := false } },
        registryNotified.env.sent ++ [.postOnboard bob.id]) ∧
    (BorrowerManagement.run registryNotified
        [.clickOnboard bob,
         .postOnboardSettled bob.id
           (.ok { data := "https://processor.example/onboard/abc", url := none })]).map
        (fun w' => (w'.env.href, w'.state)) =
      some (registryNotified.env.href,
        { registryNotified.state with notification :=
            { isOpen := true, message := "Error onboarding to Stripe", type := "error" } }) ∧
    (BorrowerManagement.run registryNotified
        [.clickOnboard bob,
         .postOnboardSettled bob.id (.error (.TransportError "timeout"))]).map
        (fun w' => (w'.env.href, w'.state)) =
      some (registryNotified.env.href,
        { registryNotified.state with notification :=
            { isOpen := true, message := "Error onboarding to Stripe", type := "error" } })) :=
  ⟨by simp [registryNotified],
   onboard_navigates_to_redirect registryNotified bob (by simp [registryNotified])
     "https://processor.example/onboard/abc" "https://processor.example/onboard/abc"
     (.TransportError "timeout")⟩

/-- C6. Disbursement gate. For every selection that is a string and every amount that is a
number (the component never holds `NaN`, see `amount_ne_nan_of_run`), the button is enabled,
and the click goes through, exactly when the selection is non-empty and the amount is
`> 0`. With the empty selection no click is possible whatever the amount, with an amount
`<= 0` no click is possible whatever the selection, so no disbursement request is sent from
those states; with `"b1"` and `100` the click sends `{ borrowerId: "b1", amount: 100 }`. -/
theorem disburse_gate (v : World DisburseFunds) (s : String) (a : JsNumber) (h : a ≠ .nan) :
    (DisburseFunds.disabled (.str s) a = false ↔ (s ≠ "" ∧ a.gt (.fin 0) = true)) ∧
    ((DisburseFunds.step
        { v with state := { v.state with selectedBorrower := .str s, amount := a } }
        .clickDisburse).isSome = true ↔ (s ≠ "" ∧ a.gt (.fin 0) = true)) ∧
    (∀ a' : JsNumber, DisburseFunds.step
        { v with state := { v.state with selectedBorrower := .str "", amount := a' } }
        .clickDisburse = none) ∧
    (∀ sel : JsValue, (a.le (.fin 0) && (DisburseFunds.step
        { v with state := { v.state with selectedBorrower := sel, amount := a } }
        .clickDisburse).isSome) = false) ∧
    (DisburseFunds.step
        { v with state := { v.state with selectedBorrower := .str "b1", amount := .fin 100 } }
        .clickDisburse).map (fun v' => v'.env.sent) =
      some (v.env.sent ++ [.postDisburse (.str "b1") (.fin 100)]) := by
  have hiff := disabled_eq_false_iff_of_ne_nan s a h
  refine ⟨hiff, ?_, ?_, ?_, ?_⟩
  · rw [← hiff]
    cases hd : DisburseFunds.disabled (.str s) a <;> simp [DisburseFunds.step, hd]
  · intro a'
    simp [DisburseFunds.step, disabled_of_empty_selection]
  · intro sel
    cases hle : a.le (.fin 0)
    · simp
    · simp [DisburseFunds.step, disabled_of_le_zero sel a hle]
  · simp [DisburseFunds.step, enabled_b1_100, DisburseFunds.disburseFunds,
      DisburseFunds.handleCloseNotification, Env.send]

/-- Witness of C6: `"b1"` and `100`, with `b1` loaded. -/
theorem disburse_gate_witness :
    JsNumber.fin 100 ≠ .nan ∧
    ((DisburseFunds.disabled (.str "b1") (.fin 100) = false ↔
        ("b1" ≠ "" ∧ (JsNumber.fin 100).gt (.fin 0) = true)) ∧
    ((DisburseFunds.step
        { disburseLoaded with state :=
            { disburseLoaded.state with selectedBorrower := .str "b1", amount := .fin 100 } }
        .clickDisburse).isSome = true ↔ ("b1" ≠ "" ∧ (JsNumber.fin 100).gt (.fin 0) = true)) ∧
    (∀ a' : JsNumber, DisburseFunds.step
        { disburseLoaded with state :=
            { disburseLoaded.state with selectedBorrower := .str "", amount := a' } }
        .clickDisburse = none) ∧
    (∀ sel : JsValue, ((JsNumber.fin 100).le (.fin 0) && (DisburseFunds.step
        { disburseLoaded with state :=
            { disburseLoaded.state with selectedBorrower := sel, amount := .fin 100 } }
        .clickDisburse).isSome) = false) ∧
    (DisburseFunds.step
        { disburseLoaded with state :=
            { disburseLoaded.state with selectedBorrower := .str "b1", amount := .fin 100 } }
        .clickDisburse).map (fun v' => v'.env.sent) =
      some (disburseLoaded.env.sent ++ [.postDisburse (.str "b1") (.fin 100)])) :=
  ⟨by simp, disburse_gate disburseLoaded "b1" (.fin 100) (by simp)⟩

/-- C7. Non-numeric amount fails the gate. For every text typed into the amount field the
change is accepted and the amount becomes `Number` of the value the field reports. For a
text that is not a number to the field (which includes every text that `Number` would turn
into `NaN`, see `numberFieldValue_of_Number_eq_nan`) that value is `""`, the amount becomes
`0`, the button is disabled whatever the selection, and no click on it is possible. -/
theorem non_numeric_amount_fails_gate (v : World DisburseFunds) (typed : String)
    (h : isValidFloatingPointNumber typed.toList = false) :
    (∀ t : String, DisburseFunds.step v (.changeAmount t) =
      some { v with state := { v.state with amount := Number (numberFieldValue t) } }) ∧
    numberFieldValue typed = "" ∧
    (DisburseFunds.step v (.changeAmount typed)).map (fun v' => v'.state.amount) =
      some (.fin 0) ∧
    (∀ sel : JsValue, DisburseFunds.disabled sel (Number (numberFieldValue typed)) = true) ∧
    DisburseFunds.run v [.changeAmount typed, .clickDisburse] = none := by
  have hval : numberFieldValue typed = "" := by
    unfold numberFieldValue
    rw [h]
    rfl
  have hnum : Number (numberFieldValue typed) = .fin 0 := by rw [hval]; rfl
  have hdis : ∀ sel : JsValue, DisburseFunds.disabled sel (.fin 0) = true :=
    fun sel => disabled_of_le_zero sel (.fin 0) (by simp [JsNumber.le])
  refine ⟨fun t => rfl, hval, ?_, ?_, ?_⟩
  · simp [DisburseFunds.step, DisburseFunds.setAmountFromText, hnum]
  · intro sel
    rw [hnum]
    exact hdis sel
  · simp [DisburseFunds.run, DisburseFunds.step, DisburseFunds.setAmountFromText, hnum, hdis]

/-- Witness of C7: the text `"abc"`, typed on the first render. -/
theorem non_numeric_amount_fails_gate_witness :
    isValidFloatingPointNumber "abc".toList = false ∧
    ((∀ t : String, DisburseFunds.step disburseFresh (.changeAmount t) =
      some { disburseFresh with state :=
        { disburseFresh.state with amount := Number (numberFieldValue t) } }) ∧
    numberFieldValue "abc" = "" ∧
    (DisburseFunds.step disburseFresh (.changeAmount "abc")).map (fun v' => v'.state.amount) =
      some (.fin 0) ∧
    (∀ sel : JsValue, DisburseFunds.disabled sel (Number (numberFieldValue "abc")) = true) ∧
    DisburseFunds.run disburseFresh [.changeAmount "abc", .clickDisburse] = none) :=
  ⟨by decide, non_numeric_amount_fails_gate disburseFresh "abc" (by decide)⟩

end LoanPlatform
